import Mathlib

/-!
Verification development for the M-30 traffic digital-twin repository.

Shallow embedding of the core pipeline:
  * `src/preprocessor.py` — data cleaning and feature engineering (hybrid
    density estimator);
  * `src/optimizer.py` — the variable-speed-limit optimizer
    (`TrafficOptimizer.optimize_traffic` and its inner per-row simulation
    `simular_escenario_avanzado`);
  * `src/kpi_analyzer.py` — hourly comparative KPI aggregation.

Modelling conventions:
  * Python floats are modelled by `ℚ`; `math.exp` is kept abstract as a
    function parameter `expQ : ℚ → ℚ`, so theorems quantifying over `expQ`
    hold in particular for the real exponential.
  * A pandas DataFrame is a `List` of row structures; `df.apply(axis=1)` is
    `List.map`, column assignment is a structure update, `groupby` means are
    explicit filtered sums.
  * Values are modelled as always present (the no-NaN value model); on fully
    present values, `interpolate`/`ffill`/`bfill` are the identity.
  * IEEE float division by zero (which pandas performs silently) is modelled
    by the explicit value type `FVal` with `inf`/`ninf`/`nan` constructors.
-/

/-- A parsed timestamp (the `fecha` column after `pd.to_datetime`): the
`dt.hour` / `dt.dayofweek` / `dt.month` accessors become field reads, and
`key` is the underlying instant used for sorting. -/
structure Timestamp where
  hour : ℕ
  day_of_week : ℕ
  month : ℕ
  key : ℕ
deriving DecidableEq

/-- One raw sensor observation: columns `id`, `fecha`, `vmed` (mean speed,
km/h), `intensidad` (flow, veh/h), `ocupacion` (occupancy, %).  Sensor ids
are modelled as naturals (their values are opaque to the algorithms). -/
structure Row where
  id : ℕ
  fecha : Timestamp
  vmed : ℚ
  intensidad : ℚ
  ocupacion : ℚ
deriving DecidableEq

/-- An observation after `DataPreprocessor.create_features`: the raw row plus
the derived columns `density_qv`, `density_occ`, `density`, `hour`,
`day_of_week`, `month`, `density_pred`. -/
structure FeatRow where
  base : Row
  density_qv : ℚ
  density_occ : ℚ
  density : ℚ
  hour : ℕ
  day_of_week : ℕ
  month : ℕ
  density_pred : ℚ
deriving DecidableEq

/-! ## Preprocessor (`src/preprocessor.py`) -/

/-- `clean_data` sort key: `sort_values(by=['id', 'fecha'])` — lexicographic
on (sensor id, timestamp instant). -/
def rowLe (a b : Row) : Prop :=
  a.id < b.id ∨ (a.id = b.id ∧ a.fecha.key ≤ b.fecha.key)

instance : DecidableRel rowLe := fun a b => by
  unfold rowLe; infer_instance

/-- `DataPreprocessor.clean_data`: empty guard, optional sensor-id filter,
stable sort by (id, fecha), removal of rows with negative speed or flow.
On the no-NaN value model the interpolation and `ffill`/`bfill` steps are
the identity, so they do not appear. -/
def clean_data (sensor_ids : Option (List ℕ)) (df : List Row) : List Row :=
  if df.isEmpty then df
  else
    let df1 := match sensor_ids with
      | some ids => df.filter (fun r => r.id ∈ ids)
      | none => df
    let df2 := List.insertionSort rowLe df1
    df2.filter (fun r => 0 ≤ r.vmed ∧ 0 ≤ r.intensidad)

/-- Method A of the density estimator: `intensidad / vmed.clip(lower=5.0)`. -/
def density_qv (q v : ℚ) : ℚ := q / max v 5

/-- Method B: `ocupacion * 3.5` when the `ocupacion` column exists, else the
fallback `density_qv` (`hasOcc` models column presence, which in pandas is a
property of the whole frame). -/
def density_occ (hasOcc : Bool) (occ q v : ℚ) : ℚ :=
  if hasOcc then occ * (35 / 10) else density_qv q v

/-- The row-wise hybrid density estimator `calculate_hybrid_density`:
trust `Q/V` when `vmed > 10` and `intensidad > 0`, otherwise the occupancy
proxy column (`row.get('density_occ', row['density_qv'])`; the `density_occ`
column exists whenever the frame has an `ocupacion` column, so the `.get`
default only fires when it is absent). -/
def calculate_hybrid_density (hasOcc : Bool) (occ q v : ℚ) : ℚ :=
  if 10 < v ∧ 0 < q then density_qv q v
  else density_occ hasOcc occ q v

/-- The density actually stored by `create_features`: the hybrid estimate
capped by `clip(upper=400.0)` (no lower clip is applied). -/
def featureDensity (hasOcc : Bool) (occ q v : ℚ) : ℚ :=
  min (calculate_hybrid_density hasOcc occ q v) 400

/-- Per-row part of `create_features`: density columns and time features.
`density_pred` is initialised to the row's own density and fixed up by
`fillPred` below. -/
def featRowOf (hasOcc : Bool) (r : Row) : FeatRow :=
  { base := r
    density_qv := density_qv r.intensidad r.vmed
    density_occ := density_occ hasOcc r.ocupacion r.intensidad r.vmed
    density := featureDensity hasOcc r.ocupacion r.intensidad r.vmed
    hour := r.fecha.hour
    day_of_week := r.fecha.day_of_week
    month := r.fecha.month
    density_pred := featureDensity hasOcc r.ocupacion r.intensidad r.vmed }

/-- `df.groupby('id')['density'].shift(-1)` followed by
`fillna(df['density'])`: each row's `density_pred` is the density of the next
row of the same sensor, or its own density at the end of the group. -/
def fillPred : List FeatRow → List FeatRow
  | [] => []
  | r :: rest =>
    let nxt := rest.find? (fun s => s.base.id = r.base.id)
    { r with density_pred := (nxt.map (·.density)).getD r.density } :: fillPred rest

/-- `DataPreprocessor.create_features` over a frame (`hasOcc`: whether the
frame has an `ocupacion` column). -/
def create_features (hasOcc : Bool) (df : List Row) : List FeatRow :=
  fillPred (df.map (featRowOf hasOcc))

/-! ## Optimizer (`src/optimizer.py`) -/

/-- `compliance_rate = 0.8` (20% speeding). -/
def complianceRate : ℚ := 8 / 10

/-- `max_improvement = 0.15` (15% theoretical max gain). -/
def maxImprovement : ℚ := 15 / 100

/-- `TrafficOptimizer._round_speed`: `int(round(speed / 10.0) * 10)`, with
Python 3's `round` rounding halves to even.  `roundHalfEven` is that
rounding on `ℚ`. -/
def roundHalfEven (x : ℚ) : ℤ :=
  if Int.fract x < 1 / 2 then ⌊x⌋
  else if 1 / 2 < Int.fract x then ⌊x⌋ + 1
  else if Even ⌊x⌋ then ⌊x⌋ else ⌊x⌋ + 1

def round_speed (speed : ℚ) : ℤ := roundHalfEven (speed / 10) * 10

/-- Candidate limits: `[l for l in range(10, 100, 10) if l <= max_limit_int]`,
with `max_limit_int` appended when it is not already a candidate, then
sorted ascending. -/
def limitCandidates (base : ℤ) : List ℤ :=
  let cands := ((List.range 9).map (fun i => 10 * ((i : ℤ) + 1))).filter (· ≤ base)
  let cands := if base ∈ cands then cands else cands ++ [base]
  List.insertionSort (· ≤ ·) cands

/-- Result triple of `simular_escenario_avanzado`:
(flow, speed, chosen limit). -/
structure SimResult where
  flow : ℚ
  speed : ℚ
  limit : ℤ
deriving DecidableEq

/-- The per-candidate prediction model inside `simular_escenario_avanzado`:
harmonization bonus `alpha` (Gaussian in the gap, centred at +10, width 15,
zero once the limit is more than 5 below the real speed), compliance-diluted
gain, capacity-clamped flow, speed from `Q/K` (the limit itself at zero
density), and the physical-consistency clamp
(`speed > limit ⟹ speed := limit, flow := limit * k`).
Returns (predicted_flow, predicted_speed). -/
def evalCandidate (expQ : ℚ → ℚ) (q_max k q v : ℚ) (L : ℤ) : ℚ × ℚ :=
  let gap : ℚ := (L : ℚ) - v
  let alpha : ℚ :=
    if -5 ≤ gap then
      maxImprovement * expQ (-(|gap - 10| ^ 2) / (2 * 15 ^ 2))
    else 0
  let realAlpha := alpha * complianceRate
  let predictedFlow := min (q * (1 + realAlpha)) q_max
  let predictedSpeed := if 0 < k then predictedFlow / k else (L : ℚ)
  if (L : ℚ) < predictedSpeed then ((L : ℚ) * k, (L : ℚ))
  else (predictedFlow, predictedSpeed)

/-- The selection step of the candidate loop: keep the candidate with the
highest predicted flow, ties broken by higher predicted speed. -/
def selectStep (expQ : ℚ → ℚ) (q_max k q v : ℚ) (acc : SimResult) (L : ℤ) :
    SimResult :=
  let p := evalCandidate expQ q_max k q v L
  if acc.flow < p.1 then ⟨p.1, p.2, L⟩
  else if p.1 = acc.flow then
    (if acc.speed < p.2 then ⟨p.1, p.2, L⟩ else acc)
  else acc

/-- `simular_escenario_avanzado`: free-flow short-circuit when
`density < 0.8 * k_crit` and `vmed > 40`; otherwise the candidate search
starting from `best_flow = best_speed = -1`, followed by the post-selection
floor `max(best_flow, flujo_real)`, the speed recomputation
`final_flow / density` (reality speed at zero density), and the clamp to the
base limit. -/
def simular_escenario_avanzado (expQ : ℚ → ℚ) (k_crit q_max : ℚ) (base : ℤ)
    (row : FeatRow) : SimResult :=
  let densidad_real := row.density
  let flujo_real := row.base.intensidad
  let velocidad_real := row.base.vmed
  if densidad_real < k_crit * (8 / 10) ∧ 40 < velocidad_real then
    ⟨flujo_real, velocidad_real, base⟩
  else
    let best := (limitCandidates base).foldl
      (selectStep expQ q_max densidad_real flujo_real velocidad_real)
      ⟨-1, -1, base⟩
    let finalFlow := max best.flow flujo_real
    let finalSpeed :=
      if 0 < densidad_real then finalFlow / densidad_real else velocidad_real
    ⟨finalFlow, min finalSpeed (base : ℚ), best.limit⟩

/-- An optimized observation: the input row plus the columns
`intensidad_opt`, `velocidad_opt` (rounded), `limite_dinamico` and the
aliases `simulated_speed`, `optimal_speed_limit`. -/
structure OptRow where
  base : FeatRow
  intensidad_opt : ℚ
  velocidad_opt : ℤ
  limite_dinamico : ℤ
  simulated_speed : ℤ
  optimal_speed_limit : ℤ
deriving DecidableEq

/-- One row of `optimize_traffic`'s output: the simulation triple written
into the three new columns, `velocidad_opt` rounded by `_round_speed`, and
the two alias columns copied from the rounded speed and the chosen limit. -/
def optimizeRow (expQ : ℚ → ℚ) (k_crit q_max : ℚ) (base : ℤ) (r : FeatRow) :
    OptRow :=
  let s := simular_escenario_avanzado expQ k_crit q_max base r
  { base := r
    intensidad_opt := s.flow
    velocidad_opt := round_speed s.speed
    limite_dinamico := s.limit
    simulated_speed := round_speed s.speed
    optimal_speed_limit := s.limit }

/-- Modelled from the spec: `TrafficPhysics.calculate_critical_density` is
referenced by the optimizer but missing from the repository sources.  Per the
spec it is "the density value corresponding to the observation(s) near
maximum flow", with a configured default fallback for degenerate series; the
configured threshold is `CRITICAL_DENSITY_THRESHOLD = 18.0` (`config.py`). -/
def calculate_critical_density (df : List FeatRow) : ℚ :=
  match df with
  | [] => 18
  | r :: rs =>
    (rs.foldl (fun best x =>
      if best.base.intensidad < x.base.intensidad then x else best) r).density

/-- Modelled from the spec: `TrafficPhysics.calculate_max_capacity` is
referenced by the optimizer but missing from the repository sources.  Per the
spec it is the maximum observed flow across the series, with a configured
default fallback for a degenerate series (the spec gives no number; 1800 is
the value its worked scenarios use). -/
def calculate_max_capacity (df : List FeatRow) : ℚ :=
  match df with
  | [] => 1800
  | r :: rs => rs.foldl (fun best x => max best x.base.intensidad) r.base.intensidad

/-- Parameter determination of `optimize_traffic`:
`self.critical_density or TrafficPhysics.calculate_critical_density(df_opt)`.
Python's `or` falls through on `None` and on `0.0` (both falsy). -/
def resolveParam (override : Option ℚ) (estimate : ℚ) : ℚ :=
  match override with
  | none => estimate
  | some v => if v = 0 then estimate else v

/-- `TrafficOptimizer.optimize_traffic`, row-wise semantics: resolve
`k_crit` and `q_max` from the overrides (falling back to the estimators),
then apply the per-row simulation, rounding and alias columns to every row.
This is the semantics of the frame operations on a nonempty frame; see
`optimize_traffic_run` for the full call, whose empty-frame path raises
inside pandas. -/
def optimize_traffic (expQ : ℚ → ℚ) (critOverride maxOverride : Option ℚ)
    (base : ℤ) (df : List FeatRow) : List OptRow :=
  let k_crit := resolveParam critOverride (calculate_critical_density df)
  let q_max := resolveParam maxOverride (calculate_max_capacity df)
  df.map (optimizeRow expQ k_crit q_max base)

/-- `TrafficOptimizer.optimize_traffic` as actually executed, including the
pandas error path on an empty frame: on a 0-row frame,
`df_opt.apply(simular_escenario_avanzado, axis=1, result_type='expand')`
never calls the row function — pandas' `apply_empty_result` returns a copy
of the original-width frame — and the subsequent three-column assignment
`df_opt[['intensidad_opt', 'velocidad_opt', 'limite_dinamico']] = result`
fails pandas' `check_key_length` with
`ValueError: Columns must be same length as key`.  On a nonempty frame the
call is the row-wise map `optimize_traffic`. -/
def optimize_traffic_run (expQ : ℚ → ℚ) (critOverride maxOverride : Option ℚ)
    (base : ℤ) (df : List FeatRow) : Except String (List OptRow) :=
  if df.isEmpty then .error "Columns must be same length as key"
  else .ok (optimize_traffic expQ critOverride maxOverride base df)

/-! ## KPI analyzer (`src/kpi_analyzer.py`) -/

/-- A reality-side row as consumed by `HourlyKPIAnalyzer` (after the `hour`
column has been derived from `fecha`). -/
structure RealityRow where
  hour : ℕ
  vmed : ℚ
  intensidad : ℚ
  density : ℚ
deriving DecidableEq

/-- A digital-twin row as consumed by `HourlyKPIAnalyzer`. -/
structure TwinRow where
  hour : ℕ
  simulated_speed : ℚ
  intensidad_opt : ℚ
  simulated_density : ℚ
deriving DecidableEq

/-- An IEEE-style float value: finite rational, infinities, or NaN.  Pandas
performs the improvement divisions silently, so a zero denominator yields
`inf` / `-inf` / `nan` rather than raising. -/
inductive FVal where
  | fin (x : ℚ) : FVal
  | inf : FVal
  | ninf : FVal
  | nan : FVal
deriving DecidableEq

/-- IEEE division of finite `a` by finite `b` (sufficient here because both
operands of every improvement division are finite means). -/
def fdiv (a b : ℚ) : FVal :=
  if b = 0 then (if 0 < a then .inf else if a < 0 then .ninf else .nan)
  else .fin (a / b)

/-- Multiplication of an IEEE value by the positive constant 100. -/
def fmul100 : FVal → FVal
  | .fin x => .fin (x * 100)
  | v => v

/-- Mean of a column, `sum / len` (all its uses below are on nonempty
groups). -/
def meanQ (l : List ℚ) : ℚ := l.sum / l.length

/-- The set of group keys produced by `groupby('hour')`: distinct hours in
ascending order. -/
def groupHours (hs : List ℕ) : List ℕ :=
  List.insertionSort (· ≤ ·) hs.dedup

/-- One output row of `calculate_hourly_metrics`. -/
structure HourMetrics where
  hour : ℕ
  vmed : ℚ
  intensidad : ℚ
  density : ℚ
  simulated_speed : ℚ
  intensidad_opt : ℚ
  simulated_density : ℚ
  speed_improvement_pct : FVal
  flow_improvement_pct : FVal
  density_reduction_pct : FVal
deriving DecidableEq

/-- `HourlyKPIAnalyzer.calculate_hourly_metrics`: group each side by hour
taking per-hour means, inner-merge on hour, and compute the three
improvement percentages.  The divisions are performed directly (no guard in
the source), hence the `FVal` results. -/
def calculate_hourly_metrics (reality : List RealityRow) (twin : List TwinRow) :
    List HourMetrics :=
  let hours := (groupHours (reality.map (·.hour))).filter
    (fun h => h ∈ twin.map (·.hour))
  hours.map (fun h =>
    let rh := reality.filter (fun r => r.hour = h)
    let th := twin.filter (fun t => t.hour = h)
    let vmed_m := meanQ (rh.map (·.vmed))
    let int_m := meanQ (rh.map (·.intensidad))
    let den_m := meanQ (rh.map (·.density))
    let ss_m := meanQ (th.map (·.simulated_speed))
    let io_m := meanQ (th.map (·.intensidad_opt))
    let sd_m := meanQ (th.map (·.simulated_density))
    { hour := h
      vmed := vmed_m
      intensidad := int_m
      density := den_m
      simulated_speed := ss_m
      intensidad_opt := io_m
      simulated_density := sd_m
      speed_improvement_pct := fmul100 (fdiv (ss_m - vmed_m) vmed_m)
      flow_improvement_pct := fmul100 (fdiv (io_m - int_m) int_m)
      density_reduction_pct := fmul100 (fdiv (den_m - sd_m) den_m) })

/-- Result dictionary of `HourlyKPIAnalyzer.get_last_hour_improvement`. -/
structure ImprovementResult where
  speed_improvement : ℚ
  reality_speed : ℚ
  twin_speed : ℚ
  hour : ℕ
deriving DecidableEq

/-- `HourlyKPIAnalyzer.get_last_hour_improvement`: filter both sides to the
given hour; all-zero result when either side is empty; otherwise the speed
improvement guarded by `if reality_avg_speed > 0 ... else 0.0`. -/
def get_last_hour_improvement (reality : List RealityRow) (twin : List TwinRow)
    (current_hour : ℕ) : ImprovementResult :=
  let rh := reality.filter (fun r => r.hour = current_hour)
  let th := twin.filter (fun t => t.hour = current_hour)
  if rh.length = 0 ∨ th.length = 0 then
    ⟨0, 0, 0, current_hour⟩
  else
    let reality_avg_speed := meanQ (rh.map (·.vmed))
    let twin_avg_speed := meanQ (th.map (·.simulated_speed))
    let improvement :=
      if 0 < reality_avg_speed then
        (twin_avg_speed - reality_avg_speed) / reality_avg_speed * 100
      else 0
    ⟨improvement, reality_avg_speed, twin_avg_speed, current_hour⟩

/-! ## Concrete test data -/

/-- A trivial stand-in for `math.exp` used to instantiate closed statements;
the branches exercised by those statements never evaluate it. -/
def expZero : ℚ → ℚ := fun _ => 0

/-- A free-flow observation with a real speed (47 km/h) that is not a
multiple of 10: density 1 veh/km, flow 500 veh/h. -/
def rowFreeFlow : FeatRow :=
  { base := { id := 1, fecha := ⟨8, 0, 1, 0⟩, vmed := 47, intensidad := 500,
              ocupacion := 0 }
    density_qv := 500 / 47
    density_occ := 0
    density := 1
    hour := 8
    day_of_week := 0
    month := 1
    density_pred := 1 }

/-- A free-flow observation whose real speed (100 km/h) exceeds the base
limit of 90. -/
def rowSpeeder : FeatRow :=
  { base := { id := 1, fecha := ⟨8, 0, 1, 0⟩, vmed := 100, intensidad := 500,
              ocupacion := 0 }
    density_qv := 5
    density_occ := 0
    density := 1
    hour := 8
    day_of_week := 0
    month := 1
    density_pred := 1 }

/-- One reality row at hour 0 with mean speed, flow and density all 0. -/
def realityZeroHour : List RealityRow := [⟨0, 0, 0, 0⟩]

/-- One twin row at hour 0 with positive metrics. -/
def twinPosHour : List TwinRow := [⟨0, 50, 100, 10⟩]

/-! ## Helper lemmas -/

lemma floor_add_one_le_ceil (x : ℚ) (h : 0 < Int.fract x) : ⌊x⌋ + 1 ≤ ⌈x⌉ := by
  have hx : (⌊x⌋ : ℚ) < x := by
    have hs := Int.self_sub_floor x
    linarith
  exact Int.lt_ceil.mpr hx

lemma roundHalfEven_le_ceil (x : ℚ) : roundHalfEven x ≤ ⌈x⌉ := by
  unfold roundHalfEven
  split_ifs with h1 h2 h3
  · exact Int.floor_le_ceil x
  · exact floor_add_one_le_ceil x (lt_trans (by norm_num) h2)
  · exact Int.floor_le_ceil x
  · have hf : Int.fract x = 1 / 2 := le_antisymm (not_lt.mp h2) (not_lt.mp h1)
    exact floor_add_one_le_ceil x (by rw [hf]; norm_num)

lemma roundHalfEven_of_fract_lt (x : ℚ) (h : Int.fract x < 1 / 2) :
    roundHalfEven x = ⌊x⌋ := by
  unfold roundHalfEven
  rw [if_pos h]

lemma roundHalfEven_of_lt_fract (x : ℚ) (h : 1 / 2 < Int.fract x) :
    roundHalfEven x = ⌊x⌋ + 1 := by
  unfold roundHalfEven
  rw [if_neg (lt_asymm h), if_pos h]

lemma roundHalfEven_half_even (x : ℚ) (h : Int.fract x = 1 / 2)
    (he : Even ⌊x⌋) : roundHalfEven x = ⌊x⌋ := by
  unfold roundHalfEven
  rw [h, if_neg (lt_irrefl _), if_neg (lt_irrefl _), if_pos he]

lemma roundHalfEven_half_odd (x : ℚ) (h : Int.fract x = 1 / 2)
    (ho : ¬ Even ⌊x⌋) : roundHalfEven x = ⌊x⌋ + 1 := by
  unfold roundHalfEven
  rw [h, if_neg (lt_irrefl _), if_neg (lt_irrefl _), if_neg ho]

lemma round_speed_le (x : ℚ) (b : ℤ) (hb : (10 : ℤ) ∣ b) (hx : x ≤ (b : ℚ)) :
    round_speed x ≤ b := by
  obtain ⟨m, rfl⟩ := hb
  have h1 : x / 10 ≤ (m : ℚ) := by
    rw [div_le_iff₀ (by norm_num : (0:ℚ) < 10)]
    push_cast at hx ⊢
    linarith
  have h2 : roundHalfEven (x / 10) ≤ m :=
    le_trans (roundHalfEven_le_ceil (x / 10)) (Int.ceil_le.mpr h1)
  unfold round_speed
  linarith

lemma optimizeRow_base (expQ : ℚ → ℚ) (k_crit q_max : ℚ) (base : ℤ)
    (r : FeatRow) : (optimizeRow expQ k_crit q_max base r).base = r := rfl

lemma rowFreeFlow_low_density : rowFreeFlow.density < 100 * (8 / 10) := by
  norm_num [rowFreeFlow]

lemma rowFreeFlow_fast : (40 : ℚ) < rowFreeFlow.base.vmed := by
  norm_num [rowFreeFlow]

lemma rowFreeFlow_le_base : rowFreeFlow.base.vmed ≤ ((90 : ℤ) : ℚ) := by
  norm_num [rowFreeFlow]

lemma rowSpeeder_low_density : rowSpeeder.density < 100 * (8 / 10) := by
  norm_num [rowSpeeder]

lemma rowSpeeder_fast : (40 : ℚ) < rowSpeeder.base.vmed := by
  norm_num [rowSpeeder]

lemma meanZeroHour_le :
    meanQ ((realityZeroHour.filter (fun r => r.hour = 0)).map (·.vmed)) ≤ 0 := by
  norm_num [realityZeroHour, meanQ, List.filter]

lemma map_optimizeRow_base (expQ : ℚ → ℚ) (k_crit q_max : ℚ) (base : ℤ)
    (df : List FeatRow) :
    (df.map (optimizeRow expQ k_crit q_max base)).map (·.base) = df := by
  induction df with
  | nil => rfl
  | cons r rest ih =>
    simp [optimizeRow_base, ih]

/-! ## Claims -/

/-- C1 (counterexample): the claim says the returned triple equals
`(flow, mean_speed, base_speed_limit)` exactly with the real speed
unchanged; but `optimize_traffic` rounds `velocidad_opt` on every row, so a
free-flow observation with real speed 47 comes back with optimized speed 50.
(The free-flow branch never evaluates the exponential, so `expZero` is
immaterial.) -/
theorem C1_counterexample :
    (optimizeRow expZero 100 1800 90 rowFreeFlow).velocidad_opt = 50 ∧
    rowFreeFlow.base.vmed = 47 ∧ ((50 : ℚ) ≠ 47) := by
  have hs : simular_escenario_avanzado expZero 100 1800 90 rowFreeFlow =
      ⟨500, 47, 90⟩ := by
    unfold simular_escenario_avanzado
    rw [if_pos (And.intro rowFreeFlow_low_density rowFreeFlow_fast)]
    rfl
  have hfl : ⌊(47:ℚ)/10⌋ = 4 := by norm_num
  have hfr : Int.fract ((47:ℚ)/10) = 7/10 := by rw [Int.fract, hfl]; norm_num
  have hr : round_speed 47 = 50 := by
    unfold round_speed
    rw [roundHalfEven_of_lt_fract _ (by rw [hfr]; norm_num), hfl]
    norm_num
  refine ⟨?_, by norm_num [rowFreeFlow], by norm_num⟩
  show round_speed (simular_escenario_avanzado expZero 100 1800 90 rowFreeFlow).speed = 50
  rw [hs]
  exact hr

/-- C1 (amended): on a free-flow observation (`density < 0.8 * k_crit` and
real speed `> 40`) the per-row simulation returns `(flow, speed, base)`
exactly, and the optimizer's output row keeps the flow and the dynamic limit
unchanged while the returned optimized speed is the real speed rounded to
the nearest multiple of 10. -/
theorem C1_free_flow_short_circuit (expQ : ℚ → ℚ) (k_crit q_max : ℚ)
    (base : ℤ) (r : FeatRow)
    (hk : r.density < k_crit * (8 / 10)) (hv : 40 < r.base.vmed) :
    simular_escenario_avanzado expQ k_crit q_max base r =
      ⟨r.base.intensidad, r.base.vmed, base⟩ ∧
    (optimizeRow expQ k_crit q_max base r).intensidad_opt =
      r.base.intensidad ∧
    (optimizeRow expQ k_crit q_max base r).limite_dinamico = base ∧
    (optimizeRow expQ k_crit q_max base r).velocidad_opt =
      round_speed r.base.vmed := by
  have hs : simular_escenario_avanzado expQ k_crit q_max base r =
      ⟨r.base.intensidad, r.base.vmed, base⟩ := by
    unfold simular_escenario_avanzado
    exact if_pos ⟨hk, hv⟩
  refine ⟨hs, ?_, ?_, ?_⟩ <;> simp [optimizeRow, hs]

/-- C1 (witness): the amended theorem applied to the concrete free-flow
observation `rowFreeFlow` (density 1 < 0.8·100, speed 47 > 40). -/
theorem C1_free_flow_short_circuit_witness :
    simular_escenario_avanzado expZero 100 1800 90 rowFreeFlow =
      ⟨rowFreeFlow.base.intensidad, rowFreeFlow.base.vmed, 90⟩ ∧
    (optimizeRow expZero 100 1800 90 rowFreeFlow).intensidad_opt =
      rowFreeFlow.base.intensidad ∧
    (optimizeRow expZero 100 1800 90 rowFreeFlow).limite_dinamico = 90 ∧
    (optimizeRow expZero 100 1800 90 rowFreeFlow).velocidad_opt =
      round_speed rowFreeFlow.base.vmed :=
  C1_free_flow_short_circuit expZero 100 1800 90 rowFreeFlow
    rowFreeFlow_low_density rowFreeFlow_fast

/-- C2: for every observation, in both the free-flow branch (which returns
the real flow) and the candidate-search branch (whose post-selection floor
is `max(best_flow, flujo_real)`), the returned `intensidad_opt` is at least
the observation's real flow. -/
theorem C2_flow_monotone (expQ : ℚ → ℚ) (k_crit q_max : ℚ) (base : ℤ)
    (r : FeatRow) :
    r.base.intensidad ≤ (optimizeRow expQ k_crit q_max base r).intensidad_opt := by
  show r.base.intensidad ≤ (simular_escenario_avanzado expQ k_crit q_max base r).flow
  unfold simular_escenario_avanzado
  by_cases h : r.density < k_crit * (8 / 10) ∧ 40 < r.base.vmed
  · rw [if_pos h]
  · rw [if_neg h]
    exact le_max_right _ _

/-- C3 (counterexample): the free-flow branch returns the real speed
unclamped, so an observation doing 100 km/h on an empty road (density 1,
base limit 90) comes back with optimized speed 100 > 90. -/
theorem C3_counterexample :
    ¬ ((optimizeRow expZero 100 1800 90 rowSpeeder).velocidad_opt ≤ 90) := by
  have hs : simular_escenario_avanzado expZero 100 1800 90 rowSpeeder =
      ⟨500, 100, 90⟩ := by
    unfold simular_escenario_avanzado
    rw [if_pos (And.intro rowSpeeder_low_density rowSpeeder_fast)]
    rfl
  have hfl : ⌊(100:ℚ)/10⌋ = 10 := by norm_num
  have hr : round_speed 100 = 100 := by
    unfold round_speed
    rw [roundHalfEven_of_fract_lt _ (by rw [Int.fract, hfl]; norm_num), hfl]
    norm_num
  show ¬ round_speed (simular_escenario_avanzado expZero 100 1800 90 rowSpeeder).speed ≤ 90
  rw [hs]
  show ¬ round_speed 100 ≤ 90
  rw [hr]
  decide

/-- C3 (amended): for every observation whose real speed does not exceed the
base limit, and for a base limit that is a multiple of 10 (true of all of
the repository's configured limits 50/70/90), the returned `velocidad_opt`
is at most the base limit: the candidate-search branch clamps its speed to
the base limit, the free-flow branch passes the real speed through, and
rounding cannot jump past a multiple of 10. -/
theorem C3_speed_bound (expQ : ℚ → ℚ) (k_crit q_max : ℚ) (base : ℤ)
    (r : FeatRow) (hv : r.base.vmed ≤ (base : ℚ)) (hb : (10 : ℤ) ∣ base) :
    (optimizeRow expQ k_crit q_max base r).velocidad_opt ≤ base := by
  show round_speed (simular_escenario_avanzado expQ k_crit q_max base r).speed ≤ base
  apply round_speed_le _ _ hb
  unfold simular_escenario_avanzado
  by_cases h : r.density < k_crit * (8 / 10) ∧ 40 < r.base.vmed
  · rw [if_pos h]
    exact hv
  · rw [if_neg h]
    exact min_le_right _ _

/-- C3 (witness): the amended bound at the concrete free-flow observation
`rowFreeFlow` (speed 47 ≤ 90, base 90 a multiple of 10). -/
theorem C3_speed_bound_witness :
    (optimizeRow expZero 100 1800 90 rowFreeFlow).velocidad_opt ≤ 90 :=
  C3_speed_bound expZero 100 1800 90 rowFreeFlow rowFreeFlow_le_base (by decide)

/-- C5: evaluation of the hybrid density estimator.  At `flow=100, speed=5`
with the occupancy column present but reading `0`, the code returns
`0 * 3.5 = 0` — not the claimed (and source-commented) fallback
`flow / max(speed, 5) = 20`.  The claim's positive scenario does hold:
`flow=0, speed=0, occupancy=80` yields `280`. -/
theorem C5_occupancy_branch_eval :
    calculate_hybrid_density true 0 100 5 = 0 ∧
    density_qv 100 5 = 20 ∧
    calculate_hybrid_density true 80 0 0 = 280 := by
  refine ⟨?_, ?_, ?_⟩ <;>
    norm_num [calculate_hybrid_density, density_occ, density_qv, max_def]

/-- C6: for every observation satisfying the input preconditions
(`flow ≥ 0`, `speed ≥ 0`, occupancy in `[0,100]` whenever the occupancy
column is present), the density stored by the feature-engineering step lies
in `[0, 400]`: both estimator branches are nonnegative and the final
`clip(upper=400)` gives the cap. -/
theorem C6_density_bounds (hasOcc : Bool) (occ q v : ℚ) (hq : 0 ≤ q)
    (hv : 0 ≤ v) (hocc : hasOcc = true → 0 ≤ occ ∧ occ ≤ 100) :
    0 ≤ featureDensity hasOcc occ q v ∧ featureDensity hasOcc occ q v ≤ 400 := by
  have hqv : 0 ≤ density_qv q v :=
    div_nonneg hq (le_trans (by norm_num) (le_max_right v 5))
  have hhyb : 0 ≤ calculate_hybrid_density hasOcc occ q v := by
    unfold calculate_hybrid_density density_occ
    split_ifs with h1 h2
    · exact hqv
    · exact mul_nonneg (hocc h2).1 (by norm_num)
    · exact hqv
  exact ⟨le_min hhyb (by norm_num), min_le_right _ _⟩

/-- C6 (witness): the bounds at the concrete degenerate observation
`flow=0, speed=0, occupancy=80`. -/
theorem C6_density_bounds_witness :
    0 ≤ featureDensity true 80 0 0 ∧ featureDensity true 80 0 0 ≤ 400 :=
  C6_density_bounds true 80 0 0 (by decide) (by decide) (by decide)

/-- C7 (counterexample): the claim says an externally supplied value of 0 is
used as-is and the estimator fallback never runs; but the source's
`self.critical_density or TrafficPhysics.calculate_critical_density(...)`
treats `0.0` as falsy, so with override 0 and estimate 25 the optimizer uses
25, not 0. -/
theorem C7_counterexample :
    resolveParam (some 0) 25 = 25 ∧ resolveParam (some 0) 25 ≠ 0 := by
  constructor
  · simp [resolveParam]
  · simp [resolveParam]

/-- C7 (amended): a supplied non-zero override always takes precedence (the
estimate is ignored); a supplied override of exactly 0 — like an absent one
— is treated as unset by Python's `or` and the parameter is estimated from
the series instead. -/
theorem C7_override_precedence (v est : ℚ) (hv : v ≠ 0) :
    resolveParam (some v) est = v := by
  show (if v = 0 then est else v) = v
  rw [if_neg hv]

/-- C7 (witness): the amended precedence at override 30, estimate 99. -/
theorem C7_override_precedence_witness : resolveParam (some 30) 99 = 30 :=
  C7_override_precedence 30 99 (by decide)

/-- C8: evaluation of the core at the failing empty input.  Cleaning (whose
`if df.empty: return df` guard is explicit in the source) and the hourly KPI
aggregation do return empty collections, but `optimize_traffic` does not:
its empty-frame run raises inside pandas — `apply(..., result_type='expand')`
on a 0-row frame yields the original-width frame and the three-column
assignment fails with `ValueError: Columns must be same length as key` — so
"returns an empty output collection and never raises" fails on the
optimization step, whatever the overrides. -/
theorem C8_empty_input_behaviour (ids : Option (List ℕ)) (expQ : ℚ → ℚ)
    (co mo : Option ℚ) (base : ℤ) :
    clean_data ids [] = [] ∧ calculate_hourly_metrics [] [] = [] ∧
    optimize_traffic_run expQ co mo base [] =
      .error "Columns must be same length as key" :=
  ⟨rfl, rfl, rfl⟩

/-- C9: `optimize_traffic` only adds columns: projecting its output rows
back to the input row recovers the input list exactly — every original
column keeps its values in every row (and, the embedding being pure, the
input itself is unchanged). -/
theorem C9_input_preserved (expQ : ℚ → ℚ) (co mo : Option ℚ) (base : ℤ)
    (df : List FeatRow) :
    (optimize_traffic expQ co mo base df).map (·.base) = df := by
  unfold optimize_traffic
  exact map_optimizeRow_base expQ _ _ base df

/-- C10: the final optimized speed of every output row — free-flow rows
included — is `_round_speed` applied to the per-row simulated speed, hence
an integer multiple of 10; and the rounding is Python's half-to-even:
45 rounds down to 40 while 55 rounds up to 60. -/
theorem C10_rounding (expQ : ℚ → ℚ) (k_crit q_max : ℚ) (base : ℤ)
    (r : FeatRow) :
    (optimizeRow expQ k_crit q_max base r).velocidad_opt =
      round_speed (simular_escenario_avanzado expQ k_crit q_max base r).speed ∧
    (10 : ℤ) ∣ (optimizeRow expQ k_crit q_max base r).velocidad_opt ∧
    round_speed 45 = 40 ∧ round_speed 55 = 60 := by
  refine ⟨rfl, ?_, ?_, ?_⟩
  · show (10 : ℤ) ∣ roundHalfEven _ * 10
    exact dvd_mul_left 10 _
  · have hfl : ⌊(45:ℚ)/10⌋ = 4 := by norm_num
    have hfr : Int.fract ((45:ℚ)/10) = 1/2 := by rw [Int.fract, hfl]; norm_num
    unfold round_speed
    rw [roundHalfEven_half_even _ hfr (by rw [hfl]; decide), hfl]
    norm_num
  · have hfl : ⌊(55:ℚ)/10⌋ = 5 := by norm_num
    have hfr : Int.fract ((55:ℚ)/10) = 1/2 := by rw [Int.fract, hfl]; norm_num
    unfold round_speed
    rw [roundHalfEven_half_odd _ hfr (by rw [hfl]; decide), hfl]
    norm_num

/-- C4 (counterexample): in `calculate_hourly_metrics` the improvement
divisions are unguarded, so for an hour whose reality-side mean speed is 0
(one reality row with `vmed = 0`, one twin row with speed 50) the
`speed_improvement_pct` is IEEE `inf`, not the claimed `0.0`. -/
theorem C4_counterexample :
    (calculate_hourly_metrics realityZeroHour twinPosHour).map
      (·.speed_improvement_pct) = [FVal.inf] ∧ FVal.inf ≠ FVal.fin 0 := by
  constructor
  · norm_num [calculate_hourly_metrics, groupHours, meanQ, fdiv, fmul100,
      realityZeroHour, twinPosHour, List.dedup, List.insertionSort,
      List.orderedInsert, List.filter]
  · decide

/-- C4 (amended): the 0.0-on-nonpositive-denominator guard does hold in the
per-hour query `get_last_hour_improvement` (and its siblings, which use the
same `if reality_avg > 0 ... else 0.0` pattern), but not in
`calculate_hourly_metrics`: whenever the mean reality speed of the selected
hour is ≤ 0, the reported speed improvement is exactly 0. -/
theorem C4_division_guard (reality : List RealityRow) (twin : List TwinRow)
    (h : ℕ)
    (hle : meanQ ((reality.filter (fun r => r.hour = h)).map (·.vmed)) ≤ 0) :
    (get_last_hour_improvement reality twin h).speed_improvement = 0 := by
  unfold get_last_hour_improvement
  by_cases hemp : (reality.filter (fun r => r.hour = h)).length = 0 ∨
      (twin.filter (fun t => t.hour = h)).length = 0
  · rw [if_pos hemp]
  · rw [if_neg hemp]
    show (if 0 < meanQ ((reality.filter (fun r => r.hour = h)).map (·.vmed))
      then (meanQ ((twin.filter (fun t => t.hour = h)).map (·.simulated_speed))
          - meanQ ((reality.filter (fun r => r.hour = h)).map (·.vmed)))
          / meanQ ((reality.filter (fun r => r.hour = h)).map (·.vmed)) * 100
      else 0) = 0
    rw [if_neg (not_lt.mpr hle)]

/-- C4 (witness): the guard at the concrete hour 0 whose single reality row
has mean speed 0. -/
theorem C4_division_guard_witness :
    (get_last_hour_improvement realityZeroHour twinPosHour 0).speed_improvement
      = 0 :=
  C4_division_guard realityZeroHour twinPosHour 0 meanZeroHour_le
